import Mathlib

/-!
Shallow embedding of `src/watcher.py` (class `AlertWatcher`): the stateful
log-watching engine that classifies records, maintains a sliding window of
effective outcomes, detects pool failover/recovery and error-rate
degradation/recovery, and gates alerts through per-kind cooldowns and a
maintenance-mode suppression flag.

Modelling conventions:
- Python `time.time()` floats are modelled as exact rationals; all the
  float arithmetic of the source (error rates, cooldown differences) is
  carried out in `ℚ`.
- Each processing entry point takes the current time `now : ℚ` as a
  parameter (the source calls `time.time()` at the check and again at the
  stamp within one handler; both happen inside a single sequential step,
  modelled with one timestamp).
- `send_slack_alert` is modelled by the list of payloads it hands to the
  webhook transport (`requests.post`): nothing under maintenance mode,
  nothing when no webhook URL is configured, otherwise the one payload.
  The transport result is external and ignored by every caller.
- Alert payloads are modelled structurally (the fields interpolated into
  the Slack message), not as rendered text.
- Each detector result carries an `event` tag mirroring which branch of
  the source ran; the branches are observable in the source through their
  distinct log lines and alert titles.
-/

/-- A parsed log record as `process_log_line` reads it: `log_entry.get`
with defaults `0`, `""`, `""` for absent fields. -/
structure LogRecord where
  status : Option Int
  pool : Option String
  upstream_status : Option String
deriving DecidableEq, Repr

/-- The mutable state of `AlertWatcher.__init__`: configuration read from
the environment plus state tracking and counters. `has_webhook` models
whether `SLACK_WEBHOOK_URL` is set. -/
structure WatcherState where
  initial_pool : String
  error_rate_threshold : ℚ
  window_size : Nat
  alert_cooldown_sec : ℚ
  maintenance_mode : Bool
  has_webhook : Bool
  last_pool : String
  request_window : List Int
  last_failover_alert : ℚ
  last_error_rate_alert : ℚ
  last_recovery_alert : ℚ
  system_degraded : Bool
  total_requests : Nat
  failover_count : Nat
deriving DecidableEq, Repr

/-- Structural alert payloads: the fields each `send_slack_alert` call in
the source interpolates into its message. -/
inductive Alert where
  | poolRecovery (previous current : String) (total_requests failover_count : Nat)
  | failoverDetected (previous new : String) (total_requests failover_count : Nat)
  | highErrorRate (rate threshold : ℚ) (error_count window_len : Nat)
      (pool : String) (total_requests : Nat)
  | errorRecovery (pool : String) (rate threshold : ℚ)
      (total_requests failover_count : Nat)
deriving DecidableEq, Repr

/-- Which branch of a detector ran (observable in the source through its
log lines and alert titles). -/
inductive EventKind where
  | noEvent
  | recovery
  | failover
  | degradation
  | errorRecovery
deriving DecidableEq, Repr

/-- Result of one detector call: the boolean the Python method returns,
the state after the call, the payloads passed to `send_slack_alert`, and
the payloads that reached the webhook transport. -/
structure StepOut where
  event : EventKind
  fired : Bool
  state : WatcherState
  sent : List Alert
  delivered : List Alert
deriving DecidableEq, Repr

/-- `send_slack_alert` (lines 84-116): under maintenance mode the alert is
suppressed (logged locally, nothing posted); with no webhook URL it is
printed to the console; otherwise the payload is handed to `requests.post`.
The boolean the source returns is ignored by every caller, so the model
keeps only the handed-off payloads. -/
def send_slack_alert (s : WatcherState) (a : Alert) : List Alert :=
  if s.maintenance_mode then []
  else if s.has_webhook then [a]
  else []

/-- `check_cooldown` (lines 118-126): true when `now - last_alert_time`
has reached `alert_cooldown_sec`. -/
def check_cooldown (s : WatcherState) (now last_alert_time : ℚ) : Bool :=
  decide (s.alert_cooldown_sec ≤ now - last_alert_time)

/-- Python `str.split(", ")` over the characters of the string: greedy
left-to-right, non-overlapping cuts at every `", "` occurrence; the empty
string yields the single empty token, as in Python. -/
def splitCommaSpace : List Char → List (List Char)
  | [] => [[]]
  | ',' :: ' ' :: rest => [] :: splitCommaSpace rest
  | c :: rest =>
    match splitCommaSpace rest with
    | [] => [[c]]
    | t :: ts => (c :: t) :: ts

/-- Python `str.strip()` with no argument: whitespace removed from both
ends (the tokens at hand are ASCII digits, commas and spaces). -/
def pyStrip (l : List Char) : List Char :=
  ((l.dropWhile Char.isWhitespace).reverse.dropWhile Char.isWhitespace).reverse

/-- Accumulator for a decimal-digit run: `none` on a non-digit. -/
def digitsValAux (acc : Nat) : List Char → Option Nat
  | [] => some acc
  | c :: cs => if c.isDigit then digitsValAux (10 * acc + (c.toNat - 48)) cs else none

/-- Value of a nonempty all-digit character run. -/
def digitsVal : List Char → Option Nat
  | [] => none
  | cs => digitsValAux 0 cs

/-- Python `int(us.strip())` as `process_log_line` applies it to an
upstream-status token: strip surrounding whitespace, optional sign, then a
nonempty decimal-digit run; anything else raises `ValueError`, modelled as
`none`. (Python additionally accepts single underscores between digits and
non-ASCII digits; no such token occurs in the analysed behaviour.) -/
def parseIntPy (t : List Char) : Option Int :=
  match pyStrip t with
  | '+' :: cs => (digitsVal cs).map (fun n => (n : Int))
  | '-' :: cs => (digitsVal cs).map (fun n => -(n : Int))
  | cs => (digitsVal cs).map (fun n => (n : Int))

/-- Lines 290-301 of `process_log_line`: on a nonempty `upstream_status`
string, split on `", "` and report whether any token parses to an integer
`>= 500` (the source breaks at the first such token; tokens that fail to
parse are skipped). -/
def has_upstream_error (r : LogRecord) : Bool :=
  let upstream_status_str := r.upstream_status.getD ""
  if upstream_status_str = "" then false
  else (splitCommaSpace upstream_status_str.data).any (fun us =>
    match parseIntPy us with
    | some us_code => decide (500 ≤ us_code)
    | none => false)

/-- Lines 303-307: the effective status appended to the window — the
sentinel `502` on an upstream error, otherwise the record status
(default `0`). -/
def effective_outcome (r : LogRecord) : Int :=
  if has_upstream_error r then 502 else r.status.getD 0

/-- Python `lst[-k:]`: the whole list when `k = 0`, otherwise the last
`k` elements (all of them when `k >= len`). -/
def pyTailSlice (l : List Int) (k : Nat) : List Int :=
  if k = 0 then l else l.drop (l.length - k)

/-- Lines 305-311: append the effective outcome, then keep only the last
`window_size` entries when the length exceeds it. -/
def pushWindow (w : List Int) (window_size : Nat) (x : Int) : List Int :=
  let w2 := w ++ [x]
  if window_size < w2.length then pyTailSlice w2 window_size else w2

/-- The error-counting loop of `calculate_error_rate` and
`check_error_rate`: how many entries are `>= 500`. -/
def countErrors : List Int → Nat
  | [] => 0
  | x :: xs => (if 500 ≤ x then 1 else 0) + countErrors xs

/-- `calculate_error_rate` (lines 191-205): `0.0` on an empty window,
otherwise `(error_count / total) * 100`, in exact arithmetic. -/
def calculate_error_rate (s : WatcherState) : ℚ :=
  if s.request_window.length = 0 then 0
  else ((countErrors s.request_window : ℚ) / (s.request_window.length : ℚ)) * 100

/-- `detect_failover` (lines 128-189). Branches in source order: empty
pool, recovery to the initial pool (cooldown-gated, with the maintenance
auto-clear before the send and the recovery stamp after it), unchanged
pool, and generic failover (cooldown-gated, failover stamp after the
send). Cooldown-suppressed transitions still update `last_pool` and
`failover_count` but send nothing and return `false`. -/
def detect_failover (s : WatcherState) (pool : String) (now : ℚ) : StepOut :=
  if pool = "" then ⟨.noEvent, false, s, [], []⟩
  else if pool = s.initial_pool ∧ s.last_pool ≠ s.initial_pool then
    let previous_pool := s.last_pool
    let s1 := { s with last_pool := pool, failover_count := s.failover_count + 1 }
    if ¬ check_cooldown s1 now s1.last_recovery_alert then
      ⟨.recovery, false, s1, [], []⟩
    else
      let s2 := if s1.maintenance_mode then { s1 with maintenance_mode := false } else s1
      let a := Alert.poolRecovery previous_pool pool s2.total_requests s2.failover_count
      let d := send_slack_alert s2 a
      ⟨.recovery, true, { s2 with last_recovery_alert := now }, [a], d⟩
  else if pool = s.last_pool then ⟨.noEvent, false, s, [], []⟩
  else
    let previous_pool := s.last_pool
    let s1 := { s with last_pool := pool, failover_count := s.failover_count + 1 }
    if ¬ check_cooldown s1 now s1.last_failover_alert then
      ⟨.failover, false, s1, [], []⟩
    else
      let a := Alert.failoverDetected previous_pool pool s1.total_requests s1.failover_count
      let d := send_slack_alert s1 a
      ⟨.failover, true, { s1 with last_failover_alert := now }, [a], d⟩

/-- `check_error_rate` (lines 207-273). The minimum-sample gate, then the
degradation branch (error-rate cooldown; stamp and `system_degraded := true`
before the send), else the recovery-from-error branch (recovery cooldown
shared with pool recovery; degraded flag cleared and maintenance auto-clear
before the send, recovery stamp after it). -/
def check_error_rate (s : WatcherState) (now : ℚ) : StepOut :=
  let minimum_requests := if s.window_size < 50 then s.window_size else 50
  if s.request_window.length < minimum_requests then ⟨.noEvent, false, s, [], []⟩
  else
    let error_rate := calculate_error_rate s
    if s.error_rate_threshold < error_rate then
      if ¬ check_cooldown s now s.last_error_rate_alert then
        ⟨.degradation, false, s, [], []⟩
      else
        let s1 := { s with last_error_rate_alert := now, system_degraded := true }
        let a := Alert.highErrorRate error_rate s1.error_rate_threshold
          (countErrors s1.request_window) s1.request_window.length
          s1.last_pool s1.total_requests
        ⟨.degradation, true, s1, [a], send_slack_alert s1 a⟩
    else
      if s.system_degraded then
        if ¬ check_cooldown s now s.last_recovery_alert then
          ⟨.errorRecovery, false, s, [], []⟩
        else
          let s1 := { s with system_degraded := false }
          let s2 := if s1.maintenance_mode then { s1 with maintenance_mode := false } else s1
          let a := Alert.errorRecovery s2.last_pool error_rate s2.error_rate_threshold
            s2.total_requests s2.failover_count
          let d := send_slack_alert s2 a
          ⟨.errorRecovery, true, { s2 with last_recovery_alert := now }, [a], d⟩
      else ⟨.noEvent, false, s, [], []⟩

/-- Result of processing one parsed record: the state afterwards and the
accumulated sent / transport-delivered payloads. -/
structure ProcOut where
  state : WatcherState
  sent : List Alert
  delivered : List Alert
deriving DecidableEq, Repr

/-- `process_log_line` (lines 275-318) on a successfully parsed record:
count the request, append the effective outcome to the sliding window,
run `detect_failover` when a pool label is present, then always run
`check_error_rate`. -/
def process_record (s : WatcherState) (r : LogRecord) (now : ℚ) : ProcOut :=
  let pool := r.pool.getD ""
  let s1 := { s with total_requests := s.total_requests + 1 }
  let s2 := { s1 with
    request_window := pushWindow s1.request_window s1.window_size (effective_outcome r) }
  let f := if pool ≠ "" then detect_failover s2 pool now
           else ⟨.noEvent, false, s2, [], []⟩
  let e := check_error_rate f.state now
  ⟨e.state, f.sent ++ e.sent, f.delivered ++ e.delivered⟩

/-- The engine state with the environment defaults of `__init__`
(`ACTIVE_POOL` "blue", threshold 2%, window 200, cooldown 300 s), a
configured webhook, and all trackers at their initial values. -/
def exState : WatcherState where
  initial_pool := "blue"
  error_rate_threshold := 2
  window_size := 200
  alert_cooldown_sec := 300
  maintenance_mode := false
  has_webhook := true
  last_pool := "blue"
  request_window := []
  last_failover_alert := 0
  last_error_rate_alert := 0
  last_recovery_alert := 0
  system_degraded := false
  total_requests := 0
  failover_count := 0

/-- C3: an incoming pool equal to `initial_pool` while `current_pool`
(`last_pool`) differs from it always takes the recovery branch of
`detect_failover`, never the generic failover branch, whatever the prior
pool was. -/
theorem claim_C3_recovery_precedence (s : WatcherState) (now : ℚ)
    (h0 : s.initial_pool ≠ "") (h1 : s.last_pool ≠ s.initial_pool) :
    (detect_failover s s.initial_pool now).event = EventKind.recovery := by
  unfold detect_failover
  rw [if_neg h0, if_pos ⟨rfl, h1⟩]
  dsimp only
  split <;> rfl

/-- Witness for C3 at a concrete state: prior pool "green" (never "blue"
immediately before), incoming "blue". -/
theorem claim_C3_witness :
    (detect_failover { exState with last_pool := "green" } "blue" 1000).event
      = EventKind.recovery :=
  claim_C3_recovery_precedence { exState with last_pool := "green" } 1000
    (by decide) (by decide)

/-- C4: a generic failover (incoming pool differs from `last_pool` and is
not the initial pool) always updates `last_pool` and increments
`failover_count`; with the failover cooldown unsatisfied it sends nothing
and reports no event, with it satisfied it sends exactly one failover
alert and stamps the failover timestamp. -/
theorem claim_C4_cooldown_gated_failover (s : WatcherState) (pool : String) (now : ℚ)
    (h0 : pool ≠ "") (h1 : pool ≠ s.last_pool) (h2 : pool ≠ s.initial_pool) :
    (detect_failover s pool now).state.last_pool = pool ∧
    (detect_failover s pool now).state.failover_count = s.failover_count + 1 ∧
    (check_cooldown s now s.last_failover_alert = false →
      (detect_failover s pool now).fired = false ∧
      (detect_failover s pool now).sent = [] ∧
      (detect_failover s pool now).delivered = []) ∧
    (check_cooldown s now s.last_failover_alert = true →
      (detect_failover s pool now).fired = true ∧
      (detect_failover s pool now).sent =
        [Alert.failoverDetected s.last_pool pool s.total_requests (s.failover_count + 1)] ∧
      (detect_failover s pool now).state.last_failover_alert = now) := by
  have hrec : ¬(pool = s.initial_pool ∧ s.last_pool ≠ s.initial_pool) := fun h => h2 h.1
  unfold detect_failover check_cooldown
  rw [if_neg h0, if_neg hrec, if_neg h1]
  dsimp only
  refine ⟨by split <;> rfl, by split <;> rfl, fun hc => ?_, fun hc => ?_⟩
  · simp [hc]
  · simp [hc]

/-- Witness for C4: failover "blue" to "green" with the cooldown
satisfied fires and updates state. -/
theorem claim_C4_witness :
    (detect_failover exState "green" 1000).state.last_pool = "green" ∧
    (detect_failover exState "green" 1000).fired = true := by
  have h := claim_C4_cooldown_gated_failover exState "green" 1000
    (by decide) (by decide) (by decide)
  refine ⟨h.1, (h.2.2.2 ?_).1⟩
  simp [check_cooldown, exState]
  norm_num

/-- C7: with fewer window samples than `min 50 window_size`,
`check_error_rate` reports no event, changes no state and sends
nothing. -/
theorem claim_C7_min_sample_gate (s : WatcherState) (now : ℚ)
    (h : s.request_window.length < min 50 s.window_size) :
    check_error_rate s now = ⟨EventKind.noEvent, false, s, [], []⟩ := by
  have hmin : (if s.window_size < 50 then s.window_size else 50) = min 50 s.window_size := by
    split <;> omega
  unfold check_error_rate
  dsimp only
  rw [hmin, if_pos h]

/-- Witness for C7: the initial state has an empty window, below the
gate of 50. -/
theorem claim_C7_witness :
    check_error_rate exState 0 = ⟨EventKind.noEvent, false, exState, [], []⟩ :=
  claim_C7_min_sample_gate exState 0 (by decide)

/-- A state in maintenance mode whose serving pool has failed over to
"green": the next "blue" record is a pool recovery. -/
def maintSt : WatcherState :=
  { exState with last_pool := "green", maintenance_mode := true }

/-- A maintenance-mode state that is also degraded with a small healthy
window (window_size 5, five 200s), so the recovery-from-error branch is
reachable too. -/
def wSt : WatcherState :=
  { exState with
    window_size := 5,
    request_window := [200, 200, 200, 200, 200],
    system_degraded := true,
    maintenance_mode := true,
    last_pool := "green" }

/-- C1 counterexample: at this concrete state the pool-recovery event
passes its cooldown check with maintenance mode on, yet the recovery
payload IS handed to the delivery collaborator (the claim says it is
suppressed). -/
theorem claim_C1_counterexample :
    maintSt.maintenance_mode = true ∧
    check_cooldown maintSt 1000 maintSt.last_recovery_alert = true ∧
    (detect_failover maintSt "blue" 1000).event = EventKind.recovery ∧
    (detect_failover maintSt "blue" 1000).fired = true ∧
    (detect_failover maintSt "blue" 1000).delivered
      = [Alert.poolRecovery "green" "blue" 0 1] := by
  refine ⟨rfl, ?_, ?_, ?_, ?_⟩ <;>
    simp [detect_failover, check_cooldown, send_slack_alert, maintSt, exState] <;>
    norm_num

/-- C1 (amended): a recovery event (pool recovery, or recovery-from-error)
that passes its cooldown check while maintenance mode is on clears
maintenance mode as a side effect; because the clear happens before the
send call, the recovery alert is NOT suppressed — with a webhook
configured it is handed to the delivery collaborator. -/
theorem claim_C1_maintenance_autoclear (s : WatcherState) (pool : String) (now : ℚ)
    (hm : s.maintenance_mode = true) (hw : s.has_webhook = true)
    (hc : check_cooldown s now s.last_recovery_alert = true) :
    (pool ≠ "" → pool = s.initial_pool → s.last_pool ≠ s.initial_pool →
      (detect_failover s pool now).state.maintenance_mode = false ∧
      (detect_failover s pool now).delivered =
        [Alert.poolRecovery s.last_pool pool s.total_requests (s.failover_count + 1)]) ∧
    (min 50 s.window_size ≤ s.request_window.length →
      calculate_error_rate s ≤ s.error_rate_threshold →
      s.system_degraded = true →
      (check_error_rate s now).state.maintenance_mode = false ∧
      (check_error_rate s now).delivered =
        [Alert.errorRecovery s.last_pool (calculate_error_rate s) s.error_rate_threshold
          s.total_requests s.failover_count]) := by
  unfold check_cooldown at hc
  constructor
  · intro h0 h1 h2
    unfold detect_failover check_cooldown
    rw [if_neg h0, if_pos ⟨h1, h2⟩]
    dsimp only
    simp [hc, hm, hw, send_slack_alert]
  · intro hg hr hd
    have hmin : (if s.window_size < 50 then s.window_size else 50) = min 50 s.window_size := by
      split <;> omega
    unfold check_error_rate check_cooldown
    dsimp only
    rw [hmin, if_neg (by omega : ¬ s.request_window.length < min 50 s.window_size),
      if_neg (not_lt.mpr hr), if_pos hd]
    simp [hc, hm, hw, send_slack_alert]

/-- Witness for C1 (amended) at `wSt`: both recovery paths clear
maintenance mode and hand their payload to the collaborator. -/
theorem claim_C1_witness :
    (detect_failover wSt "blue" 1000).state.maintenance_mode = false ∧
    (detect_failover wSt "blue" 1000).delivered = [Alert.poolRecovery "green" "blue" 0 1] ∧
    (check_error_rate wSt 1000).state.maintenance_mode = false ∧
    (check_error_rate wSt 1000).delivered = [Alert.errorRecovery "green" 0 2 0 0] := by
  have hcq : check_cooldown wSt 1000 wSt.last_recovery_alert = true := by
    simp [check_cooldown, wSt, exState]
    norm_num
  have hrate : calculate_error_rate wSt = 0 := by
    norm_num [calculate_error_rate, countErrors, wSt, exState]
  have h := claim_C1_maintenance_autoclear wSt "blue" 1000 rfl rfl hcq
  have h1 := h.1 (by decide) rfl (by decide)
  have h2 := h.2 (by decide) (by rw [hrate]; norm_num [wSt, exState]) rfl
  exact ⟨h1.1, h1.2, h2.1, by rw [h2.2, hrate]; rfl⟩

/-- C9: a degradation onset suppressed by the error-rate cooldown leaves
the degraded flag unset (state unchanged, nothing sent); and in any state
with the flag unset and the rate at or below threshold, no
recovery-from-error fires — so an entire degradation episode can pass
without either alert. -/
theorem claim_C9_suppressed_onset (s : WatcherState) (now : ℚ)
    (hgate : min 50 s.window_size ≤ s.request_window.length)
    (hrate : s.error_rate_threshold < calculate_error_rate s)
    (hcool : check_cooldown s now s.last_error_rate_alert = false)
    (hdeg : s.system_degraded = false) :
    check_error_rate s now = ⟨EventKind.degradation, false, s, [], []⟩ ∧
    (∀ t : WatcherState, ∀ now2 : ℚ, t.system_degraded = false →
      calculate_error_rate t ≤ t.error_rate_threshold →
      (check_error_rate t now2).fired = false ∧
      (check_error_rate t now2).sent = [] ∧
      (check_error_rate t now2).state = t) := by
  constructor
  · have hmin : (if s.window_size < 50 then s.window_size else 50) = min 50 s.window_size := by
      split <;> omega
    unfold check_cooldown at hcool
    unfold check_error_rate check_cooldown
    dsimp only
    rw [hmin, if_neg (not_lt.mpr hgate), if_pos hrate]
    simp [hcool]
  · intro t now2 hd hr
    unfold check_error_rate
    dsimp only
    by_cases g : t.request_window.length < (if t.window_size < 50 then t.window_size else 50)
    · rw [if_pos g]
      exact ⟨rfl, rfl, rfl⟩
    · rw [if_neg g, if_neg (not_lt.mpr hr), if_neg (by simp [hd])]
      exact ⟨rfl, rfl, rfl⟩

/-- A non-degraded state with an all-error small window whose error-rate
cooldown is still active (last error alert 900, now 1000, cooldown 300). -/
def c9St : WatcherState :=
  { exState with
    window_size := 5,
    request_window := [502, 502, 502, 502, 502],
    last_error_rate_alert := 900 }

/-- Witness for C9: the suppressed onset leaves `c9St` untouched, and
after the window turns healthy no recovery fires. -/
theorem claim_C9_witness :
    check_error_rate c9St 1000 = ⟨EventKind.degradation, false, c9St, [], []⟩ ∧
    (check_error_rate { c9St with request_window := [200, 200, 200, 200, 200] } 2000).sent
      = [] := by
  have hrt : c9St.error_rate_threshold < calculate_error_rate c9St := by
    norm_num [calculate_error_rate, countErrors, c9St, exState]
  have hcl : check_cooldown c9St 1000 c9St.last_error_rate_alert = false := by
    simp [check_cooldown, c9St, exState]
    norm_num
  have h := claim_C9_suppressed_onset c9St 1000 (by decide) hrt hcl rfl
  refine ⟨h.1, ?_⟩
  have h2 := h.2 { c9St with request_window := [200, 200, 200, 200, 200] } 2000 rfl
    (by norm_num [calculate_error_rate, countErrors, c9St, exState])
  exact h2.2.1

/-- C6: pool recovery and recovery-from-error read and stamp the single
`last_recovery_alert` timestamp: a fired recovery of either kind stamps it
to `now`, and in any state whose stamp is closer than `alert_cooldown_sec`
to the current time, both kinds of recovery alert are suppressed. -/
theorem claim_C6_shared_recovery_cooldown (s : WatcherState) (pool pool2 : String)
    (now now2 : ℚ) :
    ((detect_failover s pool now).event = EventKind.recovery →
      (detect_failover s pool now).fired = true →
      (detect_failover s pool now).state.last_recovery_alert = now) ∧
    ((check_error_rate s now).event = EventKind.errorRecovery →
      (check_error_rate s now).fired = true →
      (check_error_rate s now).state.last_recovery_alert = now) ∧
    (now2 - s.last_recovery_alert < s.alert_cooldown_sec →
      ((detect_failover s pool2 now2).event = EventKind.recovery →
        (detect_failover s pool2 now2).fired = false ∧
        (detect_failover s pool2 now2).sent = []) ∧
      ((check_error_rate s now2).event = EventKind.errorRecovery →
        (check_error_rate s now2).fired = false ∧
        (check_error_rate s now2).sent = [])) := by
  refine ⟨?_, ?_, fun hcd => ⟨?_, ?_⟩⟩
  · unfold detect_failover check_cooldown
    dsimp only
    split_ifs <;> intro hev hfired <;> simp_all
  · unfold check_error_rate check_cooldown
    dsimp only
    split_ifs <;> intro hev hfired <;> simp_all
  · unfold detect_failover check_cooldown
    dsimp only
    split_ifs <;> intro hev <;> simp_all <;> linarith
  · unfold check_error_rate check_cooldown
    dsimp only
    split_ifs <;> intro hev <;> simp_all <;> linarith

/-- The three alert kinds whose last-fired timestamps the watcher keeps. -/
inductive AlertKind where
  | failoverK
  | errorRateK
  | recoveryK
deriving DecidableEq, Repr

/-- The last-fired timestamp field belonging to an alert kind. -/
def lastAlertOf (s : WatcherState) : AlertKind → ℚ
  | .failoverK => s.last_failover_alert
  | .errorRateK => s.last_error_rate_alert
  | .recoveryK => s.last_recovery_alert

/-- `check_cooldown` reads only `alert_cooldown_sec` from the state. -/
lemma check_cooldown_sec_congr (a b : WatcherState)
    (h : a.alert_cooldown_sec = b.alert_cooldown_sec) (now x : ℚ) :
    check_cooldown a now x = check_cooldown b now x := by
  unfold check_cooldown
  rw [h]

/-- `detect_failover` never changes the cooldown length. -/
lemma detect_failover_cooldown_sec (t : WatcherState) (pool : String) (now : ℚ) :
    (detect_failover t pool now).state.alert_cooldown_sec = t.alert_cooldown_sec := by
  unfold detect_failover
  dsimp only
  split_ifs <;> rfl

/-- If an alert kind's cooldown check fails, `detect_failover` leaves its
timestamp unchanged. -/
lemma detect_failover_preserves_stamp (t : WatcherState) (pool : String) (now : ℚ)
    (k : AlertKind) (h : check_cooldown t now (lastAlertOf t k) = false) :
    lastAlertOf (detect_failover t pool now).state k = lastAlertOf t k := by
  cases k
  all_goals
    simp only [lastAlertOf] at h ⊢
    unfold check_cooldown at h
    unfold detect_failover check_cooldown
    dsimp only
    split_ifs <;> simp_all

/-- If an alert kind's cooldown check fails, `check_error_rate` leaves its
timestamp unchanged. -/
lemma check_error_rate_preserves_stamp (t : WatcherState) (now : ℚ)
    (k : AlertKind) (h : check_cooldown t now (lastAlertOf t k) = false) :
    lastAlertOf (check_error_rate t now).state k = lastAlertOf t k := by
  cases k
  all_goals
    simp only [lastAlertOf] at h ⊢
    unfold check_cooldown at h
    unfold check_error_rate check_cooldown
    dsimp only
    split_ifs <;> simp_all

/-- Composition of the two detectors inside one processing step preserves
a timestamp whose cooldown check fails at step entry. -/
lemma two_step_preserves (t : WatcherState) (pool : String) (now : ℚ)
    (k : AlertKind) (h : check_cooldown t now (lastAlertOf t k) = false) :
    lastAlertOf (check_error_rate (detect_failover t pool now).state now).state k
      = lastAlertOf t k := by
  have hpre := detect_failover_preserves_stamp t pool now k h
  have h1 : check_cooldown (detect_failover t pool now).state now
      (lastAlertOf (detect_failover t pool now).state k) = false := by
    rw [check_cooldown_sec_congr _ t (detect_failover_cooldown_sec t pool now), hpre]
    exact h
  rw [check_error_rate_preserves_stamp _ now k h1, hpre]

/-- C5: for every alert kind, if the kind's cooldown check fails at the
start of a processing step then its last-fired timestamp is unchanged at
the end of the step — a suppressed event never resets its own timer. -/
theorem claim_C5_suppressed_never_stamps (s : WatcherState) (r : LogRecord) (now : ℚ)
    (k : AlertKind) (h : check_cooldown s now (lastAlertOf s k) = false) :
    lastAlertOf (process_record s r now).state k = lastAlertOf s k := by
  unfold process_record
  dsimp only
  split
  · exact (two_step_preserves _ _ now k (by cases k <;> exact h)).trans
      (by cases k <;> rfl)
  · exact (check_error_rate_preserves_stamp _ now k (by cases k <;> exact h)).trans
      (by cases k <;> rfl)

/-- Witness for C5: at `c9St` the error-rate cooldown is still active and
processing an all-error record leaves `last_error_rate_alert` at 900. -/
theorem claim_C5_witness :
    lastAlertOf (process_record c9St ⟨some 502, none, none⟩ 1000).state
        AlertKind.errorRateK
      = lastAlertOf c9St AlertKind.errorRateK :=
  claim_C5_suppressed_never_stamps c9St ⟨some 502, none, none⟩ 1000 AlertKind.errorRateK
    (by simp [check_cooldown, lastAlertOf, c9St, exState]; norm_num)

/-- Neither detector touches the request window. -/
lemma detect_failover_window (t : WatcherState) (pool : String) (now : ℚ) :
    (detect_failover t pool now).state.request_window = t.request_window := by
  unfold detect_failover
  dsimp only
  split_ifs <;> rfl

/-- `check_error_rate` never modifies the request window. -/
lemma check_error_rate_window (t : WatcherState) (now : ℚ) :
    (check_error_rate t now).state.request_window = t.request_window := by
  unfold check_error_rate
  dsimp only
  split_ifs <;> rfl

/-- The empty-string guard of the source collapses: on `""` the split
yields one empty token, which fails to parse. -/
lemma has_upstream_error_eq (r : LogRecord) :
    has_upstream_error r =
      (splitCommaSpace (r.upstream_status.getD "").data).any (fun us =>
        match parseIntPy us with
        | some us_code => decide (500 ≤ us_code)
        | none => false) := by
  unfold has_upstream_error
  dsimp only
  split_ifs with h
  · rw [h]
    rfl
  · rfl

/-- C2: the outcome a processing step appends to the window is the
sentinel 502 exactly when some token of `upstream_status` split on ", "
parses to an integer >= 500 (tokens that fail to parse are skipped), and
otherwise the record status verbatim (0 when absent). -/
theorem claim_C2_upstream_classification (r : LogRecord) (s : WatcherState) (now : ℚ) :
    effective_outcome r =
      (if (splitCommaSpace (r.upstream_status.getD "").data).any (fun us =>
          match parseIntPy us with
          | some us_code => decide (500 ≤ us_code)
          | none => false)
        then 502 else r.status.getD 0) ∧
    (process_record s r now).state.request_window =
      pushWindow s.request_window s.window_size (effective_outcome r) := by
  constructor
  · rw [effective_outcome, has_upstream_error_eq]
  · unfold process_record
    dsimp only
    rw [check_error_rate_window]
    split
    · rw [detect_failover_window]
    · rfl

/-- C10: a comma-separated list without the following space, "502,200",
survives the split on ", " as a single token that fails integer parsing
and is skipped, so the effective outcome equals the record status — even
though the string carries the upstream code 502 >= 500 (visible when
split on ","). -/
theorem claim_C10_comma_without_space (st : Option Int) (p : Option String) :
    splitCommaSpace ("502,200".data) = ["502,200".data] ∧
    parseIntPy ("502,200".data) = none ∧
    splitCommaSpace ("502, 200".data) = ["502".data, "200".data] ∧
    parseIntPy ("502".data) = some 502 ∧
    effective_outcome ⟨st, p, some "502,200"⟩ = st.getD 0 ∧
    effective_outcome ⟨st, p, some "502, 200"⟩ = 502 := by
  have hue : has_upstream_error ⟨st, p, some "502,200"⟩ = false := by rfl
  have hue2 : has_upstream_error ⟨st, p, some "502, 200"⟩ = true := by rfl
  refine ⟨by decide, by decide, by decide, by decide, ?_, ?_⟩
  · rw [effective_outcome, hue]
    rfl
  · rw [effective_outcome, hue2]
    rfl

/-- One push on a saturated-or-smaller suffix window advances the
suffix by exactly the appended element. -/
lemma pushWindow_drop (ws : Nat) (hws : 1 ≤ ws) (xs : List Int) (x : Int) :
    pushWindow (xs.drop (xs.length - ws)) ws x = (xs ++ [x]).drop (xs.length + 1 - ws) := by
  by_cases hn : xs.length < ws
  · have h1 : xs.length - ws = 0 := by omega
    have h2 : xs.length + 1 - ws = 0 := by omega
    rw [h1, h2, List.drop_zero, List.drop_zero]
    unfold pushWindow pyTailSlice
    dsimp only
    rw [if_neg (by simp; omega)]
  · push_neg at hn
    have hlenw : (xs.drop (xs.length - ws)).length = ws := by
      rw [List.length_drop]
      omega
    unfold pushWindow pyTailSlice
    dsimp only
    rw [if_pos (by simp [hlenw]), if_neg (by omega : ¬ ws = 0)]
    have hlen2 : (xs.drop (xs.length - ws) ++ [x]).length - ws = 1 := by
      simp [hlenw]
    rw [hlen2, List.drop_append_of_le_length (by omega : 1 ≤ (xs.drop (xs.length - ws)).length),
      List.drop_drop, List.drop_append_of_le_length (by omega : xs.length + 1 - ws ≤ xs.length),
      show xs.length - ws + 1 = xs.length + 1 - ws by omega]

/-- Folding `pushWindow` from the empty window over any sequence yields
exactly the last `window_size` elements in arrival order. -/
lemma foldl_pushWindow (ws : Nat) (hws : 1 ≤ ws) (xs : List Int) :
    List.foldl (fun w x => pushWindow w ws x) [] xs = xs.drop (xs.length - ws) := by
  induction xs using List.reverseRecOn with
  | nil => simp
  | append_singleton ys y ih =>
    rw [List.foldl_append]
    simp only [List.foldl]
    rw [ih, pushWindow_drop ws hws, List.length_append]
    rfl

/-- C8: after pushing any N outcomes into an empty window the window is
exactly the last `window_size` of them in arrival order (so its length
never exceeds `window_size`); the error rate is 0 on the empty window and
exactly `100 * k / n` when `k` of the `n` entries are >= 500. -/
theorem claim_C8_window_invariants (ws : Nat) (hws : 1 ≤ ws) (xs : List Int)
    (s : WatcherState) :
    List.foldl (fun w x => pushWindow w ws x) [] xs = xs.drop (xs.length - ws) ∧
    (List.foldl (fun w x => pushWindow w ws x) [] xs).length ≤ ws ∧
    (s.request_window = [] → calculate_error_rate s = 0) ∧
    (s.request_window ≠ [] →
      calculate_error_rate s =
        100 * (countErrors s.request_window : ℚ) / (s.request_window.length : ℚ)) := by
  refine ⟨foldl_pushWindow ws hws xs, ?_, ?_, ?_⟩
  · rw [foldl_pushWindow ws hws xs, List.length_drop]
    omega
  · intro h
    unfold calculate_error_rate
    rw [h]
    rfl
  · intro h
    unfold calculate_error_rate
    rw [if_neg (by simpa using h)]
    ring

/-- Witness for C8: a capacity-2 window keeps the last two of three
pushes, and an all-error window of five has rate exactly 100. -/
theorem claim_C8_witness :
    List.foldl (fun w x => pushWindow w 2 x) [] [500, 200, 502] = [200, 502] ∧
    calculate_error_rate c9St = 100 := by
  have h := claim_C8_window_invariants 2 (by decide) [500, 200, 502] c9St
  constructor
  · rw [h.1]
    rfl
  · rw [h.2.2.2 (by decide)]
    norm_num [countErrors, c9St, exState]
